import Mathlib

/-!
Verification of the example Kubernetes operator (src/src/main.rs): a minimal
controller that watches Pod objects cluster-wide, logs their status, and
requeues every 10 seconds, with a 5 second retry on error.

The Rust source is shallowly embedded: pure functions become Lean functions,
logging becomes an explicit list of log entries returned alongside the value,
and durations are natural numbers of seconds. Library components that the
source merely calls (the kube client bootstrap, the controller run loop and
its work queue) are modelled from the specification where a claim needs them;
each such definition carries a doc comment saying so.
-/

namespace ExampleOperator

/-- Seconds, the unit in which the source constructs durations
(tokio `Duration::from_secs`). -/
abbrev Duration : Type := Nat

/-- Mirrors tokio `Duration::from_secs`. -/
def Duration.from_secs (n : Nat) : Duration := n

/-- `kube::runtime::controller::Action`: the result of a reconciliation
attempt. `requeue d` asks for another reconciliation after `d`;
`await_change` (the spec calls it NoRequeue) asks for none. -/
inductive Action : Type
  | requeue (d : Duration)
  | await_change
deriving DecidableEq

/-- An opaque handle standing for `kube::client::Client`; the source never
inspects it, only clones and stores it. -/
structure Client : Type where
  token : String
deriving DecidableEq

/-- `ContextData` from the source: wraps the Kubernetes client and is injected
into each `reconcile` and `on_error` invocation. -/
structure ContextData : Type where
  client : Client
deriving DecidableEq

/-- `ContextData::new` from the source. -/
def ContextData.new (client : Client) : ContextData := ⟨client⟩

/-- Stands for `kube::Error`, the error type of the underlying cluster-API
library; its internal structure is irrelevant here, only that values exist. -/
structure KubeError : Type where
  message : String
deriving DecidableEq

/-- `ExampleError` from the source: a single variant `KubeError` wrapping a
`kube::Error` as its source. -/
inductive ExampleError : Type
  | kubeError (src : KubeError)
deriving DecidableEq

/-- The wrapped source error of an `ExampleError` (the `source` field of the
single variant). -/
def ExampleError.sourceErr : ExampleError → KubeError
  | .kubeError s => s

/-- The Display message of `ExampleError`, from its `#[error(...)]`
attribute in the source. -/
def ExampleError.displayMessage : ExampleError → String
  | .kubeError s => "Kubernetes Example Operator Error: " ++ s.message

/-- Slice of `k8s_openapi` `PodStatus`: the source only Debug-prints it, so a
representative field suffices. -/
structure PodStatus : Type where
  phase : Option String
deriving DecidableEq

/-- Slice of `k8s_openapi` `ObjectMeta`: the fields `name_any` reads. -/
structure ObjectMeta : Type where
  name : Option String
  generateName : Option String
  namespaceField : Option String
deriving DecidableEq

/-- Slice of the `k8s_openapi` `Pod` object: metadata and status. -/
structure Pod : Type where
  metadata : ObjectMeta
  status : Option PodStatus
deriving DecidableEq

/-- `ResourceExt::name_any`: the metadata name, else the generate-name, else
the empty string. -/
def Pod.name_any (p : Pod) : String :=
  ((p.metadata.name).or p.metadata.generateName).getD ""

/-- One emitted log line / console line, tagged by call site so that the
logging behaviour of each function is visible in its result. -/
inductive LogEntry : Type
  | statusLine (s : Option PodStatus)
  | resourceNameLine (n : String)
  | reconcileSuccessLine (obj : String) (a : Action)
  | reconcileErrorLine (e : ExampleError)
  | errPrintedLine (e : ExampleError)
  | errLoggedLine (e : ExampleError)
deriving DecidableEq

/-- `reconcile` from the source: logs the status of the Pod and its name,
then returns `Ok(Action::requeue(Duration::from_secs(10)))`. The log lines
are returned explicitly as the first component. -/
def reconcile (pod : Pod) (_context : ContextData) :
    List LogEntry × Except ExampleError Action :=
  ([LogEntry.statusLine pod.status, LogEntry.resourceNameLine pod.name_any],
   Except.ok (Action.requeue (Duration.from_secs 10)))

/-- `on_error` from the source: prints and logs the error, then returns
`Action::requeue(Duration::from_secs(5))`. -/
def on_error (_pod : Pod) (error : ExampleError) (_context : ContextData) :
    List LogEntry × Action :=
  ([LogEntry.errPrintedLine error, LogEntry.errLoggedLine error],
   Action.requeue (Duration.from_secs 5))

/-- Identity of a watched resource, the spec data model ObjectRef:
namespace, name and kind. -/
structure ObjectRef : Type where
  namespaceField : Option String
  name : String
  kind : String
deriving DecidableEq

/-- The ObjectRef of a Pod, as the controller library derives it from the
object metadata. -/
def Pod.objectRef (p : Pod) : ObjectRef :=
  ⟨p.metadata.namespaceField, p.name_any, "Pod"⟩

/-- `kube::runtime::controller::Error` (`KubeContError` in the source): the
error type of the run stream. The source matches on `ReconcilerFailed` and
discards every other variant in a catch-all arm; the other variants are
modelled after the library taxonomy the spec treats as external. -/
inductive KubeContError : Type
  | reconcilerFailed (err : ExampleError) (obj : ObjectRef)
  | objectNotFound (obj : ObjectRef)
  | queueError (message : String)
  | runnerError (message : String)
deriving DecidableEq

/-- One item of the controller run stream: a successful reconciliation
reported with the ObjectRef and chosen Action, or a `KubeContError`. -/
abbrev ReconcileItem : Type := Except KubeContError (ObjectRef × Action)

/-- The body of the `for_each` closure in `main` (lines 84 to 99): on `Ok`
log success, on `ReconcilerFailed` log the error, on any other error do
nothing. Returns the log lines it emits. -/
def handleResult : ReconcileItem → List LogEntry
  | .ok r => [LogEntry.reconcileSuccessLine r.1.name r.2]
  | .error (.reconcilerFailed err _) => [LogEntry.reconcileErrorLine err]
  | .error _ => []

/-- One reconciliation attempt as seen by the controller loop: the observed
Pod together with the result the reconciler produced for it. -/
inductive ReconcileAttempt : Type
  | succeeded (pod : Pod) (a : Action)
  | failed (pod : Pod) (e : ExampleError)
deriving DecidableEq

/-- What the loop does with one attempt: the stream item it emits, the
follow-up action it schedules, and the log lines produced at the loop
boundary. -/
structure LoopRecord : Type where
  emitted : ReconcileItem
  schedule : Action
  logs : List LogEntry

/-- Modelled from the spec: the Controller Loop interprets each outcome —
success schedules the returned Action; failure is converted into the action
computed by the error handler `on_error` — and the resulting item is passed
to the result handler of `main`, which logs it. -/
def loopStep (context : ContextData) : ReconcileAttempt → LoopRecord
  | .succeeded pod a =>
      { emitted := .ok (pod.objectRef, a)
        schedule := a
        logs := handleResult (.ok (pod.objectRef, a)) }
  | .failed pod e =>
      { emitted := .error (.reconcilerFailed e pod.objectRef)
        schedule := (on_error pod e context).2
        logs := handleResult (.error (.reconcilerFailed e pod.objectRef)) }

/-- Modelled from the spec: the Controller Loop processes every attempt of
the stream in order and never terminates on a failure. -/
def controllerLoop (context : ContextData)
    (attempts : List ReconcileAttempt) : List LoopRecord :=
  attempts.map (loopStep context)

/-- Watch scope of an Api handle: all namespaces, or one namespace. -/
inductive Scope : Type
  | allNamespaces
  | namespaced (ns : String)
deriving DecidableEq

/-- Resource kind an Api handle is typed over. -/
inductive ResourceKind : Type
  | pod
  | deployment
  | other (name : String)
deriving DecidableEq

/-- `kube::Api`: a typed handle to the cluster API, carrying the client, the
scope and the resource kind it was instantiated at. -/
structure Api : Type where
  client : Client
  scope : Scope
  resourceKind : ResourceKind
deriving DecidableEq

/-- `Api::all`: a handle over all namespaces for the given resource kind. -/
def Api.all (k : ResourceKind) (c : Client) : Api :=
  ⟨c, Scope.allNamespaces, k⟩

/-- `kube::runtime::watcher::Config`: the watcher configuration; its default
restricts neither by label nor by field selector. -/
structure Config : Type where
  labelSelector : Option String
  fieldSelector : Option String
deriving DecidableEq

/-- `Config::default()`. -/
def Config.default : Config := ⟨none, none⟩

/-- The Api handle `main` constructs at line 78: `Api::<Pod>::all(kc)`. -/
def mainApi (kc : Client) : Api := Api.all ResourceKind.pod kc

/-- The watcher configuration `main` passes to `Controller::new` at line 82:
`Config::default()`. -/
def mainWatcherConfig : Config := Config.default

/-- Modelled from the spec: the ambient environment from which cluster
credentials are resolved at startup — either a usable kubeconfig-equivalent
is present, or resolution fails. -/
structure Env : Type where
  kubeconfig : Option Client
deriving DecidableEq

/-- Modelled from the spec: `Client::try_default()`, resolving the client
from the ambient environment; it fails when no credentials are present. -/
def Client.try_default (env : Env) : Except KubeError Client :=
  match env.kubeconfig with
  | some c => Except.ok c
  | none => Except.error ⟨"failed to infer kubeconfig"⟩

/-- Outcome of running `main`: either the process aborts during startup with
the expect message, or the controller loop runs over the stream. -/
inductive MainResult : Type
  | aborted (message : String)
  | completed (records : List LoopRecord)

/-- `main` from the source, over an explicit environment and stream of
reconciliation attempts: `Client::try_default().expect(...)` aborts the
process on failure; otherwise the Api handle and context are built and the
controller loop runs to completion. -/
def main (env : Env) (attempts : List ReconcileAttempt) : MainResult :=
  match Client.try_default env with
  | .error _ => .aborted "Expected a valid KUBECONFIG file"
  | .ok kc => .completed (controllerLoop (ContextData.new kc) attempts)

/-- Modelled from the spec: the Work Queue of the controller runtime (spec
section 4.1). `pending` holds queued refs awaiting dequeue, `processing`
holds refs currently in flight, and `redo` records refs whose add arrived
while they were in processing, to be re-queued by `done`. -/
structure WorkQueue : Type where
  pending : List ObjectRef
  processing : List ObjectRef
  redo : List ObjectRef
deriving DecidableEq

/-- The initial, empty work queue. -/
def WorkQueue.empty : WorkQueue := ⟨[], [], []⟩

/-- Modelled from the spec: `add` enqueues a request, collapsing duplicates
already pending; an add arriving while the ref is in processing is recorded
for re-queueing at `done` time instead of being enqueued at once. -/
def WorkQueue.addItem (q : WorkQueue) (x : ObjectRef) : WorkQueue :=
  if x ∈ q.pending then q
  else if x ∈ q.processing then
    if x ∈ q.redo then q else ⟨q.pending, q.processing, x :: q.redo⟩
  else ⟨q.pending ++ [x], q.processing, q.redo⟩

/-- Modelled from the spec: `get` hands out the next pending ref and marks it
in processing; it blocks (here: returns `none`) when nothing is pending. -/
def WorkQueue.getItem (q : WorkQueue) : Option (ObjectRef × WorkQueue) :=
  match q.pending with
  | [] => none
  | x :: rest => some (x, ⟨rest, x :: q.processing, q.redo⟩)

/-- Modelled from the spec: `done` clears the in-processing marker and
re-queues the ref if an add arrived during processing. -/
def WorkQueue.doneItem (q : WorkQueue) (x : ObjectRef) : WorkQueue :=
  ⟨if x ∈ q.redo then q.pending ++ [x] else q.pending,
   q.processing.erase x,
   q.redo.erase x⟩

/-- An operation on the work queue. -/
inductive WQOp : Type
  | add (x : ObjectRef)
  | get
  | done (x : ObjectRef)
deriving DecidableEq

/-- One step of the work queue under an operation; a blocked `get` leaves the
queue unchanged. -/
def WorkQueue.step (q : WorkQueue) : WQOp → WorkQueue
  | .add x => q.addItem x
  | .get =>
      match q.getItem with
      | none => q
      | some r => r.2
  | .done x => q.doneItem x

/-- The queue reached from the empty queue by a sequence of operations. -/
def WorkQueue.run (ops : List WQOp) : WorkQueue :=
  ops.foldl WorkQueue.step WorkQueue.empty

/-- The structural invariant of the work queue: no list holds duplicates,
pending and processing are disjoint, and every recorded redo is currently in
processing. -/
def WorkQueue.Inv (q : WorkQueue) : Prop :=
  q.pending.Nodup ∧ q.processing.Nodup ∧ q.redo.Nodup ∧
  (∀ x ∈ q.pending, x ∉ q.processing) ∧
  (∀ x ∈ q.redo, x ∈ q.processing)

/-- **C1.** For every Pod object and every context value, `reconcile` returns
success with the action `requeue (10 s)`: never `await_change` (NoRequeue)
and never any other duration. -/
theorem reconcile_returns_requeue_ten (pod : Pod) (context : ContextData) :
    (reconcile pod context).2 =
      Except.ok (Action.requeue (Duration.from_secs 10)) := by
  rfl

/-- **C2.** For every Pod object, every error value and every context value,
`on_error` returns the action `requeue (5 s)`, a fixed backoff independent of
the content of the error. -/
theorem on_error_returns_requeue_five (pod : Pod) (error : ExampleError)
    (context : ContextData) :
    (on_error pod error context).2 =
      Action.requeue (Duration.from_secs 5) := by
  rfl

/-- **C3.** The reconciler is idempotent: two invocations of `reconcile` with
identical observed Pod state and identical context produce identical
outcomes, both the returned Action and the emitted side effects. -/
theorem reconcile_idempotent (p₁ p₂ : Pod) (c₁ c₂ : ContextData)
    (hp : p₁ = p₂) (hc : c₁ = c₂) :
    reconcile p₁ c₁ = reconcile p₂ c₂ := by
  rw [hp, hc]

/-- Witness for C3 at a concrete Pod and context. -/
theorem reconcile_idempotent_witness :
    reconcile ⟨⟨some "pod-a", none, some "default"⟩, some ⟨some "Running"⟩⟩
        ⟨⟨"kubeconfig-client"⟩⟩ =
      reconcile ⟨⟨some "pod-a", none, some "default"⟩, some ⟨some "Running"⟩⟩
        ⟨⟨"kubeconfig-client"⟩⟩ :=
  reconcile_idempotent _ _ _ _ rfl rfl

/-- **C7.** The error type `ExampleError` has exactly one variant, which
wraps an error of the underlying cluster-API library: every `ExampleError`
value is of the form `kubeError s` and carries that `s` as its source. -/
theorem exampleError_single_variant (e : ExampleError) :
    ∃ s : KubeError, e = ExampleError.kubeError s ∧ e.sourceErr = s := by
  cases e with
  | kubeError s => exact ⟨s, rfl, rfl⟩

/-- **C9.** The success path of `reconcile` is total: for every Pod and
context input it returns `Ok`, so its `Err` branch is unreachable. -/
theorem reconcile_never_errors (pod : Pod) (context : ContextData) :
    ∃ a : Action, (reconcile pod context).2 = Except.ok a :=
  ⟨Action.requeue (Duration.from_secs 10), rfl⟩

/-- **C4.** Reconciler failures never terminate the controller loop: the loop
processes every attempt of the stream (one record per attempt, in order), and
every failed attempt is logged at the loop boundary by the result handler and
converted into a fixed five-second requeue via `on_error`. -/
theorem loop_survives_reconciler_failures (context : ContextData)
    (attempts : List ReconcileAttempt) :
    (controllerLoop context attempts).length = attempts.length ∧
    ∀ pod e,
      (loopStep context (ReconcileAttempt.failed pod e)).schedule =
        Action.requeue (Duration.from_secs 5) ∧
      (loopStep context (ReconcileAttempt.failed pod e)).logs =
        [LogEntry.reconcileErrorLine e] := by
  refine ⟨List.length_map _ _, fun pod e => ⟨rfl, rfl⟩⟩

/-- **C5.** If resolving the cluster client from the ambient environment
fails at startup, `main` aborts immediately with the expect message: no
controller loop is constructed or run, for any stream. -/
theorem startup_failure_is_fatal (env : Env)
    (attempts : List ReconcileAttempt)
    (h : Client.try_default env = Except.error ⟨"failed to infer kubeconfig"⟩) :
    main env attempts = MainResult.aborted "Expected a valid KUBECONFIG file" := by
  unfold main
  rw [h]

/-- Witness for C5: the environment with no kubeconfig present. -/
theorem startup_failure_is_fatal_witness :
    main ⟨none⟩ [] = MainResult.aborted "Expected a valid KUBECONFIG file" :=
  startup_failure_is_fatal ⟨none⟩ [] rfl

/-- **C6.** The controller watches exactly one resource kind, Pod, cluster
wide: the Api handle of `main` is built over all namespaces at kind Pod, and
the watcher configuration is the default, with no label or field selector. -/
theorem watches_pods_cluster_wide (kc : Client) :
    (mainApi kc).resourceKind = ResourceKind.pod ∧
    (mainApi kc).scope = Scope.allNamespaces ∧
    mainWatcherConfig.labelSelector = none ∧
    mainWatcherConfig.fieldSelector = none :=
  ⟨rfl, rfl, rfl, rfl⟩

/-- **C10.** Controller-stream errors other than `ReconcilerFailed` are
silently discarded by the result handler of `main`: the catch-all arm emits
no log line, while a `ReconcilerFailed` item is logged. -/
theorem non_reconciler_errors_discarded (obj : ObjectRef) (msg : String)
    (err : ExampleError) :
    handleResult (Except.error (KubeContError.objectNotFound obj)) = [] ∧
    handleResult (Except.error (KubeContError.queueError msg)) = [] ∧
    handleResult (Except.error (KubeContError.runnerError msg)) = [] ∧
    handleResult (Except.error (KubeContError.reconcilerFailed err obj)) =
      [LogEntry.reconcileErrorLine err] :=
  ⟨rfl, rfl, rfl, rfl⟩

theorem wq_inv_empty : WorkQueue.empty.Inv := by
  refine ⟨List.nodup_nil, List.nodup_nil, List.nodup_nil, ?_, ?_⟩ <;>
    intro x hx <;> simp [WorkQueue.empty] at hx

theorem wq_inv_add {q : WorkQueue} (h : q.Inv) (x : ObjectRef) :
    (q.addItem x).Inv := by
  obtain ⟨hp, hpr, hr, hd, hrd⟩ := h
  unfold WorkQueue.addItem
  by_cases h1 : x ∈ q.pending
  · rw [if_pos h1]; exact ⟨hp, hpr, hr, hd, hrd⟩
  · rw [if_neg h1]
    by_cases h2 : x ∈ q.processing
    · rw [if_pos h2]
      by_cases h3 : x ∈ q.redo
      · rw [if_pos h3]; exact ⟨hp, hpr, hr, hd, hrd⟩
      · rw [if_neg h3]
        refine ⟨hp, hpr, List.nodup_cons.mpr ⟨h3, hr⟩, hd, ?_⟩
        intro y hy
        rcases List.mem_cons.mp hy with hyx | hyr
        · exact hyx ▸ h2
        · exact hrd y hyr
    · rw [if_neg h2]
      refine ⟨?_, hpr, hr, ?_, hrd⟩
      · exact List.nodup_append.mpr
          ⟨hp, List.nodup_singleton x,
           fun a ha hax => h1 (List.mem_singleton.mp hax ▸ ha)⟩
      · intro y hy
        rcases List.mem_append.mp hy with hy1 | hy2
        · exact hd y hy1
        · exact List.mem_singleton.mp hy2 ▸ h2

theorem wq_inv_get {q : WorkQueue} (h : q.Inv) (x : ObjectRef)
    (q2 : WorkQueue) (hget : q.getItem = some (x, q2)) : q2.Inv := by
  obtain ⟨hp, hpr, hr, hd, hrd⟩ := h
  unfold WorkQueue.getItem at hget
  cases hpd : q.pending with
  | nil => rw [hpd] at hget; cases hget
  | cons y rest =>
      rw [hpd] at hget
      rw [Option.some.injEq, Prod.mk.injEq] at hget
      obtain ⟨hxy, hq2⟩ := hget
      subst hq2
      rw [hpd] at hp hd
      have hy_proc : y ∉ q.processing := hd y (List.mem_cons_self y rest)
      have hy_rest : y ∉ rest := (List.nodup_cons.mp hp).1
      refine ⟨(List.nodup_cons.mp hp).2, List.nodup_cons.mpr ⟨hy_proc, hpr⟩,
        hr, ?_, ?_⟩
      · intro z hz hzc
        have hz_pend : z ∈ y :: rest := List.mem_cons_of_mem y hz
        rcases List.mem_cons.mp hzc with hzy | hzp
        · exact hy_rest (hzy ▸ hz)
        · exact hd z hz_pend hzp
      · intro z hz
        exact List.mem_cons_of_mem y (hrd z hz)

theorem wq_inv_done {q : WorkQueue} (h : q.Inv) (x : ObjectRef) :
    (q.doneItem x).Inv := by
  obtain ⟨hp, hpr, hr, hd, hrd⟩ := h
  unfold WorkQueue.doneItem
  have herase_sub : ∀ z, z ∈ q.processing.erase x → z ∈ q.processing :=
    fun z hz => List.mem_of_mem_erase hz
  refine ⟨?_, hpr.erase x, hr.erase x, ?_, ?_⟩
  · by_cases hx : x ∈ q.redo
    · rw [if_pos hx]
      have hx_pend : x ∉ q.pending := fun hxp => hd x hxp (hrd x hx)
      exact List.nodup_append.mpr
        ⟨hp, List.nodup_singleton x,
         fun a ha hax => hx_pend (List.mem_singleton.mp hax ▸ ha)⟩
    · rw [if_neg hx]; exact hp
  · intro y hy hyc
    by_cases hx : x ∈ q.redo
    · rw [if_pos hx] at hy
      rcases List.mem_append.mp hy with hy1 | hy2
      · exact hd y hy1 (herase_sub y hyc)
      · have hyx : y = x := List.mem_singleton.mp hy2
        exact hpr.not_mem_erase (hyx ▸ hyc)
    · rw [if_neg hx] at hy
      exact hd y hy (herase_sub y hyc)
  · intro y hy
    have hy2 := hr.mem_erase_iff.mp hy
    exact hpr.mem_erase_iff.mpr ⟨hy2.1, hrd y hy2.2⟩

theorem wq_inv_step {q : WorkQueue} (h : q.Inv) (op : WQOp) :
    (q.step op).Inv := by
  cases op with
  | add x => exact wq_inv_add h x
  | get =>
      unfold WorkQueue.step
      cases hg : q.getItem with
      | none => exact h
      | some r =>
          obtain ⟨x, q2⟩ := r
          exact wq_inv_get h x q2 hg
  | done x => exact wq_inv_done h x

theorem wq_inv_run (ops : List WQOp) : (WorkQueue.run ops).Inv := by
  unfold WorkQueue.run
  suffices h : ∀ q : WorkQueue, q.Inv → (ops.foldl WorkQueue.step q).Inv from
    h WorkQueue.empty wq_inv_empty
  induction ops with
  | nil => intro q hq; simpa using hq
  | cons op rest ih =>
      intro q hq
      simpa using ih (q.step op) (wq_inv_step hq op)

/-- **C8.** Work-queue exclusivity: in every queue state reachable by any
sequence of add, get and done operations, each ObjectRef is in flight at most
once — the in-processing multiset never holds two entries for the same
object identity, so no two concurrent reconciliations run for the same
ObjectRef. -/
theorem workqueue_at_most_one_in_flight (ops : List WQOp) (x : ObjectRef) :
    ((WorkQueue.run ops).processing).count x ≤ 1 :=
  List.nodup_iff_count_le_one.1 (wq_inv_run ops).2.1 x

end ExampleOperator
